import Mathlib

/-!
Verification of the Electron window-registry / floating-widget core.

Shallow embedding of `src/main/windowManager.ts` (the `WindowManager` class),
`src/services/main.ts` (the `IpcMainService` handlers) and
`src/renderer/float/src/App.tsx` (the `FloatBall` drag/click controller).

Window handles are modelled as numeric ids allocated from a counter; the
external windowing runtime is modelled by an explicit system state (registry
map, destroyed set, minimized set, per-window positions) plus an append-only
log of the side effects the code performs (window construction, event
wiring, content loading, close requests, restore/show/focus, route
messages, position mutations).  Roles are runtime strings, as in the
JavaScript `switch` on the role value, so that unknown roles are
expressible.
-/

/-- The known window roles: the cases of the `switch` in
`WindowManager.getWindowConfig` (`'main' | 'floatBall' | 'popup'`). -/
def knownRoles : List String := ["main", "floatBall", "popup"]

/-- Environment facts the window manager reads: `is.dev`, the
`ELECTRON_RENDERER_URL` environment variable (`none` = unset),
`process.platform === 'linux'`, and the primary display's work-area size. -/
structure Env where
  isDev : Bool
  rendererUrl? : Option String
  platformLinux : Bool
  workAreaWidth : Int
  workAreaHeight : Int
  deriving Repr

/-- JavaScript truthiness of an optional environment-variable string:
`undefined` and `""` are falsy. -/
def envTruthy : Option String → Bool
  | none => false
  | some s => s ≠ ""

/-- The `BrowserWindowConstructorOptions` fields the source sets
(web preferences / preload path / icon carry no behaviour in this model). -/
structure WinOptions where
  width : Nat
  height : Nat
  showOnCreate : Bool
  autoHideMenuBar : Bool
  frame : Bool
  skipTaskbar : Bool
  transparent : Bool
  resizable : Bool
  alwaysOnTop : Bool
  x? : Option Int
  y? : Option Int
  deriving Repr, DecidableEq

/-- The `WindowConfig` interface of `windowManager.ts`. -/
structure WindowConfig where
  type : String
  options : WinOptions
  url? : Option String
  file? : Option String
  hash? : Option String
  deriving Repr, DecidableEq

/-- Model of `WindowManager.getWindowConfig`: role → configuration, `none` on the
`default` arm (unknown role). -/
def getWindowConfig (env : Env) (type : String) : Option WindowConfig :=
  if type = "main" then
    some {
      type := "main"
      options := {
        width := 900, height := 670, showOnCreate := false,
        autoHideMenuBar := true, frame := true, skipTaskbar := false,
        transparent := false, resizable := true, alwaysOnTop := false,
        x? := none, y? := none }
      url? := match env.rendererUrl? with
        | some u => if env.isDev ∧ u ≠ "" then some (u ++ "/index.html") else none
        | none => none
      file? := if ¬ env.isDev ∨ ¬ envTruthy env.rendererUrl?
        then some "../renderer/index.html" else none
      hash? := none }
  else if type = "floatBall" then
    some {
      type := "floatBall"
      options := {
        width := 190, height := 170, showOnCreate := true,
        autoHideMenuBar := false, frame := false, skipTaskbar := true,
        transparent := true, resizable := false, alwaysOnTop := true,
        x? := some (env.workAreaWidth - 220), y? := some (env.workAreaHeight - 180) }
      url? := match env.rendererUrl? with
        | some u => if env.isDev ∧ u ≠ "" then some (u ++ "/float.html") else none
        | none => none
      file? := if ¬ env.isDev ∨ ¬ envTruthy env.rendererUrl?
        then some "../renderer/float.html" else none
      hash? := none }
  else if type = "popup" then
    some {
      type := "popup"
      options := {
        width := 600, height := 400, showOnCreate := false,
        autoHideMenuBar := true, frame := true, skipTaskbar := false,
        transparent := false, resizable := true, alwaysOnTop := false,
        x? := none, y? := none }
      url? := match env.rendererUrl? with
        | some u => if env.isDev ∧ u ≠ "" then some (u ++ "/float.html#popup") else none
        | none => none
      file? := if ¬ env.isDev ∨ ¬ envTruthy env.rendererUrl?
        then some "../renderer/float.html" else none
      hash? := some "popup" }
  else
    none

/-- Observable side effects performed by the main-process code. -/
inductive Effect where
  | diagnostic (msg : String)
  | createWindow (w : Nat)
  | wiring (role : String) (w : Nat)
  | loadURL (w : Nat) (url : String)
  | loadFile (w : Nat) (file : String) (hash? : Option String)
  | closeRequest (w : Nat)
  | restore (w : Nat)
  | showWindow (w : Nat)
  | focus (w : Nat)
  | sendRoute (w : Nat) (route : String)
  | setPosition (w : Nat) (x y : Int)
  deriving Repr, DecidableEq

/-- System state: the registry's `windows` map (role → handle id), the
closed-listeners registered at creation (role, handle id), which handles'
underlying windows have been destroyed, which are minimized, each window's
position, the allocation counter, and the effect log. -/
structure SysState where
  nextId : Nat
  windows : List (String × Nat)
  listeners : List (String × Nat)
  destroyed : List Nat
  minimized : List Nat
  winPos : Nat → Int × Int
  events : List Effect

/-- Operation `Map.get` on the registry's association list. -/
def mapLookup (m : List (String × Nat)) (k : String) : Option Nat :=
  match m with
  | [] => none
  | (k', v) :: rest => if k' = k then some v else mapLookup rest k

/-- Operation `Map.delete` on the registry map. -/
def mapDelete (m : List (String × Nat)) (k : String) : List (String × Nat) :=
  m.filter (fun p => p.1 ≠ k)

/-- Operation `Map.set` (replaces any existing binding of the key). -/
def mapSet (m : List (String × Nat)) (k : String) (v : Nat) : List (String × Nat) :=
  (k, v) :: mapDelete m k

/-- The content-loading step of `createOrGetWindow`:
`if (is.dev) { window.loadURL(config.url ?? '') } else if (config.file) { ... }`. -/
def loadEffects (env : Env) (config : WindowConfig) (w : Nat) : List Effect :=
  if env.isDev then
    [.loadURL w (config.url?.getD "")]
  else
    match config.file? with
    | some f => [.loadFile w f config.hash?]
    | none => []

/-- The creation path of `createOrGetWindow` (reached when no live window is
stored for the role): resolve the config (`none` ⇒ diagnostic and no
mutation), else construct the window, attach wiring, load content, register
the closed listener and store the handle. -/
def createFresh (env : Env) (type : String) (s : SysState) : Option Nat × SysState :=
  match getWindowConfig env type with
  | none =>
      (none, { s with events := s.events ++ [.diagnostic ("Unknown window type: " ++ type)] })
  | some config =>
      let w := s.nextId
      (some w,
        { s with
          nextId := w + 1
          windows := mapSet s.windows type w
          listeners := (type, w) :: s.listeners
          winPos := fun i =>
            if i = w then
              match config.options.x?, config.options.y? with
              | some x, some y => (x, y)
              | _, _ => s.winPos i
            else s.winPos i
          events := s.events ++ [.createWindow w, .wiring type w] ++ loadEffects env config w })

/-- Model of `WindowManager.createOrGetWindow`: return the stored handle when its
window is live, otherwise create. -/
def createOrGetWindow (env : Env) (type : String) (s : SysState) : Option Nat × SysState :=
  match mapLookup s.windows type with
  | some w => if w ∈ s.destroyed then createFresh env type s else (some w, s)
  | none => createFresh env type s

/-- Model of `WindowManager.getWindow`: lookup only; `none` when absent or destroyed. -/
def getWindow (type : String) (s : SysState) : Option Nat :=
  match mapLookup s.windows type with
  | some w => if w ∈ s.destroyed then none else some w
  | none => none

/-- Model of `WindowManager.closeWindow`: when a live handle is stored, request the
window's close and delete the map entry immediately. -/
def closeWindow (type : String) (s : SysState) : SysState :=
  match mapLookup s.windows type with
  | some w =>
      if w ∈ s.destroyed then s
      else { s with
        events := s.events ++ [.closeRequest w]
        windows := mapDelete s.windows type }
  | none => s

/-- The windowing runtime destroys window `w` and fires its `closed` event:
`w` becomes destroyed, and every closed listener `(role, w)` registered for
it runs `this.windows.delete(role)`. -/
def fireClosed (w : Nat) (s : SysState) : SysState :=
  { s with
    destroyed := w :: s.destroyed
    windows := s.windows.filter (fun p => ¬ (p.1, w) ∈ s.listeners) }

/-- Well-formedness of reachable states: stored, destroyed, listener and
minimized ids are below the allocation counter; stored entries use known
roles and have their closed listener registered. -/
def SysWF (s : SysState) : Prop :=
  (∀ p ∈ s.windows, p.2 < s.nextId ∧ p.1 ∈ knownRoles ∧ p ∈ s.listeners)
  ∧ (∀ w ∈ s.destroyed, w < s.nextId)
  ∧ (∀ p ∈ s.listeners, p.2 < s.nextId)
  ∧ (∀ w ∈ s.minimized, w < s.nextId)

instance : DecidablePred SysWF := fun s => by
  unfold SysWF; infer_instance

/-- The empty initial state. -/
def initState : SysState :=
  { nextId := 0, windows := [], listeners := [], destroyed := [],
    minimized := [], winPos := fun _ => (0, 0), events := [] }

/-- A production environment used by concrete witnesses. -/
def envProd : Env :=
  { isDev := false, rendererUrl? := none, platformLinux := false,
    workAreaWidth := 1920, workAreaHeight := 1080 }

/-- A development environment with no configured dev-server address. -/
def envDevNoUrl : Env :=
  { isDev := true, rendererUrl? := none, platformLinux := false,
    workAreaWidth := 1920, workAreaHeight := 1080 }

/-! ## IPC main-process handlers (`IpcMainService`, `src/services/main.ts`) -/

/-- JavaScript `Math.round` on an exact rational: round half toward positive infinity,
i.e. `⌊q + 1/2⌋`, computed on the numerator/denominator so that it
evaluates by kernel reduction (`jsRound_eq_floor` states the floor form). -/
def jsRound (q : ℚ) : ℤ := (2 * q.num + q.den) / (2 * q.den)

lemma jsRound_eq_floor (q : ℚ) : jsRound q = ⌊q + 1/2⌋ := by
  have hd0 : ((q.den : ℚ)) ≠ 0 := Nat.cast_ne_zero.mpr q.den_nz
  have hqn : (q.num : ℚ) = q * (q.den : ℚ) := (div_eq_iff hd0).mp (Rat.num_div_den q)
  have heq : q + 1/2 = (((2 * q.num + (q.den : ℤ)) : ℤ) : ℚ) / (((2 * q.den : ℕ) : ℕ) : ℚ) := by
    push_cast
    rw [eq_div_iff (by positivity)]
    rw [hqn]
    ring
  rw [heq, Rat.floor_intCast_div_natCast]
  rw [jsRound]
  push_cast
  ring_nf

/-- JavaScript `Math.round` yields a nearest whole number: it is within `1/2` of its
argument. -/
lemma jsRound_near (q : ℚ) : |q - jsRound q| ≤ 1/2 := by
  rw [jsRound_eq_floor]
  have h1 := Int.floor_le (q + 1/2)
  have h2 := Int.lt_floor_add_one (q + 1/2)
  rw [abs_le]
  constructor <;> [linarith; linarith]

/-- Model of `IpcMainService.handleGetPosition`: the floatBall window's position, or
`[0, 0]` when no live floatBall window exists. -/
def handleGetPosition (s : SysState) : Int × Int :=
  match getWindow "floatBall" s with
  | some w => s.winPos w
  | none => (0, 0)

/-- Model of `IpcMainService.handleSetPosition`: when a live floatBall window exists,
apply `setPosition(Math.round(args.x), Math.round(args.y))`. -/
def handleSetPosition (x y : ℚ) (s : SysState) : SysState :=
  match getWindow "floatBall" s with
  | some w =>
      { s with
        events := s.events ++ [.setPosition w (jsRound x) (jsRound y)]
        winPos := fun i => if i = w then (jsRound x, jsRound y) else s.winPos i }
  | none => s

/-- The tail of `IpcMainService.handleRestoreMain` once a main-window handle
is in hand: un-minimize when minimized, show and focus, and forward a truthy
route hint. -/
def restoreShowFocus (w : Nat) (route? : Option String) (s₁ : SysState) : SysState :=
  let s₂ :=
    if w ∈ s₁.minimized then
      { s₁ with
        events := s₁.events ++ [.restore w]
        minimized := s₁.minimized.filter (fun i => i ≠ w) }
    else s₁
  let s₃ := { s₂ with events := s₂.events ++ [.showWindow w, .focus w] }
  match route? with
  | some r => if r ≠ "" then { s₃ with events := s₃.events ++ [.sendRoute w r] } else s₃
  | none => s₃

/-- Model of `IpcMainService.handleRestoreMain`.  Argument `route?` models
`options?.route` (`none` covers both a missing options object and a missing
route field); `if (options?.route)` is JavaScript truthiness, so an
empty-string route is not forwarded. -/
def handleRestoreMain (env : Env) (route? : Option String) (s : SysState) : SysState :=
  match (match getWindow "main" s with
         | some w => (some w, s)
         | none => createOrGetWindow env "main" s) with
  | (none, s₁) => s₁
  | (some w, s₁) => restoreShowFocus w route? s₁

/-! ## Floating-widget drag/click controller (`FloatBall`, `App.tsx`) -/

/-- One `mousemove` step of the closure in `handleMouseDown`: compute the
delta from the press coordinates, cross into dragging when either axis
exceeds 5 pixels, and while dragging emit a position-set message of
initial window position plus the delta. -/
def stepMove (winX winY mouseX mouseY : Int) (dragging : Bool) (m : Int × Int) :
    Bool × Option (Int × Int) :=
  let deltaX := m.1 - mouseX
  let deltaY := m.2 - mouseY
  let dragging' :=
    if ¬ dragging ∧ (5 < |deltaX| ∨ 5 < |deltaY|) then true else dragging
  if dragging' then (dragging', some (winX + deltaX, winY + deltaY))
  else (dragging', none)

/-- Process a list of `mousemove` events, returning the final dragging flag
and the position-set messages sent. -/
def runMoves (winX winY mouseX mouseY : Int) :
    Bool → List (Int × Int) → Bool × List (Int × Int)
  | dragging, [] => (dragging, [])
  | dragging, m :: rest =>
      let step := stepMove winX winY mouseX mouseY dragging m
      let tail := runMoves winX winY mouseX mouseY step.1 rest
      (tail.1, step.2.toList ++ tail.2)

/-- One pointer-down/up cycle after the initial window position arrived:
the press screen coordinates and timestamp, the fetched window position,
the move events, and the release timestamp. -/
structure DragCycle where
  mouseX : Int
  mouseY : Int
  downTime : Int
  winX : Int
  winY : Int
  moves : List (Int × Int)
  upTime : Int

/-- Run a cycle's move tracking (dragging starts out false). -/
def cycleRun (c : DragCycle) : Bool × List (Int × Int) :=
  runMoves c.winX c.winY c.mouseX c.mouseY false c.moves

/-- The whole cycle from `handleMouseDown`: when the widget is expanded the
handler returns at once; otherwise the moves are tracked and, at
`mouseup`, a non-drag released strictly under 200ms toggles the expanded
state.  Returns the expanded state after the cycle and the position-set
messages sent during it. -/
def handleCycle (expanded : Bool) (c : DragCycle) : Bool × List (Int × Int) :=
  if expanded then (expanded, [])
  else
    let r := cycleRun c
    (if r.1 = false ∧ c.upTime - c.downTime < 200 then !expanded else expanded, r.2)

/-- A cycle started in state `s`: the window's initial position is whatever
`handleGetPosition` answered to the position query issued at press time. -/
def startCycle (s : SysState) (mouseX mouseY downTime : Int)
    (moves : List (Int × Int)) (upTime : Int) : DragCycle :=
  { mouseX := mouseX, mouseY := mouseY, downTime := downTime,
    winX := (handleGetPosition s).1, winY := (handleGetPosition s).2,
    moves := moves, upTime := upTime }


/-! ## Concrete states for witnesses -/

/-- A state holding a live main window with handle 0. -/
def stMain : SysState :=
  { nextId := 1, windows := [("main", 0)], listeners := [("main", 0)], destroyed := [],
    minimized := [], winPos := fun _ => (0, 0), events := [] }

/-- The same state with the main window minimized. -/
def stMainMin : SysState :=
  { stMain with minimized := [0] }

/-- A state holding a live floatBall window with handle 0. -/
def stFloat : SysState :=
  { nextId := 1, windows := [("floatBall", 0)], listeners := [("floatBall", 0)], destroyed := [],
    minimized := [], winPos := fun _ => (0, 0), events := [] }

/-! ## Registry lemmas -/

lemma mapLookup_mapSet_self (m : List (String × Nat)) (k : String) (v : Nat) :
    mapLookup (mapSet m k v) k = some v := by
  simp [mapSet, mapLookup]

lemma mapLookup_mapDelete_self (m : List (String × Nat)) (k : String) :
    mapLookup (mapDelete m k) k = none := by
  induction m with
  | nil => rfl
  | cons p rest ih =>
      by_cases h : p.1 = k
      · simpa [mapDelete, h] using ih
      · simpa [mapDelete, mapLookup, h] using ih

lemma mapLookup_mem {m : List (String × Nat)} {k : String} {v : Nat}
    (h : mapLookup m k = some v) : (k, v) ∈ m := by
  induction m with
  | nil => simp [mapLookup] at h
  | cons p rest ih =>
      obtain ⟨p1, p2⟩ := p
      rw [mapLookup] at h
      by_cases hk : p1 = k
      · subst hk
        rw [if_pos rfl] at h
        have hv : p2 = v := Option.some.inj h
        subst hv
        exact List.mem_cons_self _ _
      · rw [if_neg hk] at h
        exact List.mem_cons_of_mem _ (ih h)

lemma mapLookup_filter_eq_none {m : List (String × Nat)} {k : String}
    {q : String × Nat → Bool} (h : ∀ v, q (k, v) = false) :
    mapLookup (m.filter q) k = none := by
  induction m with
  | nil => rfl
  | cons p rest ih =>
      by_cases hq : q p = true
      · rw [List.filter_cons_of_pos hq, mapLookup]
        have hk : p.1 ≠ k := by
          intro hk
          rw [show p = (k, p.2) by cases p; simp_all] at hq
          rw [h p.2] at hq
          exact Bool.false_ne_true hq
        rw [if_neg hk]
        exact ih
      · rw [List.filter_cons_of_neg (by simpa using hq)]
        exact ih

lemma mapLookup_filter_of_none {m : List (String × Nat)} {k : String}
    {q : String × Nat → Bool} (h : mapLookup m k = none) :
    mapLookup (m.filter q) k = none := by
  induction m with
  | nil => rfl
  | cons p rest ih =>
      rw [mapLookup] at h
      by_cases hk : p.1 = k
      · rw [if_pos hk] at h
        exact absurd h (by simp)
      · rw [if_neg hk] at h
        by_cases hq : q p = true
        · rw [List.filter_cons_of_pos hq, mapLookup, if_neg hk]
          exact ih h
        · rw [List.filter_cons_of_neg (by simpa using hq)]
          exact ih h

lemma getWindowConfig_known {type : String} (h : type ∈ knownRoles) (env : Env) :
    ∃ c, getWindowConfig env type = some c := by
  simp only [knownRoles, List.mem_cons, List.not_mem_nil, or_false] at h
  rcases h with h | h | h <;> subst h <;> simp [getWindowConfig]

lemma getWindowConfig_unknown {type : String} (h : type ∉ knownRoles) (env : Env) :
    getWindowConfig env type = none := by
  simp only [knownRoles, List.mem_cons, List.not_mem_nil, or_false, not_or] at h
  obtain ⟨h1, h2, h3⟩ := h
  rw [getWindowConfig, if_neg h1, if_neg h2, if_neg h3]

lemma createFresh_some_lookup {env : Env} {type : String} {s : SysState} {w : Nat}
    (h : (createFresh env type s).1 = some w) :
    mapLookup (createFresh env type s).2.windows type = some w := by
  rw [createFresh] at h ⊢
  cases hc : getWindowConfig env type with
  | none => simp [hc] at h
  | some config =>
      simp only [hc] at h ⊢
      simp only [Option.some.injEq] at h
      simp only [← h]
      exact mapLookup_mapSet_self _ _ _

lemma createOrGet_some_lookup {env : Env} {type : String} {s : SysState} {w : Nat}
    (h : (createOrGetWindow env type s).1 = some w) :
    mapLookup (createOrGetWindow env type s).2.windows type = some w := by
  rw [createOrGetWindow] at h ⊢
  cases hm : mapLookup s.windows type with
  | some w0 =>
      simp only [hm] at h ⊢
      by_cases hd : w0 ∈ s.destroyed
      · rw [if_pos hd] at h ⊢
        exact createFresh_some_lookup h
      · rw [if_neg hd] at h ⊢
        simp only [Option.some.injEq] at h
        rw [← h]
        exact hm
  | none =>
      simp only [hm] at h ⊢
      exact createFresh_some_lookup h

lemma createOrGet_existing {env : Env} {type : String} {s : SysState} {w : Nat}
    (h : mapLookup s.windows type = some w) (hd : w ∉ s.destroyed) :
    createOrGetWindow env type s = (some w, s) := by
  rw [createOrGetWindow, h]
  show (if w ∈ s.destroyed then createFresh env type s else (some w, s)) = (some w, s)
  rw [if_neg hd]

/-- C1: for every role, when `createOrGetWindow` returns a handle whose
underlying window is not destroyed, an immediately repeated call returns the
identical handle and leaves the whole system state unchanged — no window
construction, no event wiring, no content load. -/
theorem createOrGetWindow_idempotent (env : Env) (role : String) (s : SysState) (w : Nat)
    (h1 : (createOrGetWindow env role s).1 = some w)
    (h2 : w ∉ (createOrGetWindow env role s).2.destroyed) :
    createOrGetWindow env role (createOrGetWindow env role s).2
      = (some w, (createOrGetWindow env role s).2) :=
  createOrGet_existing (createOrGet_some_lookup h1) h2

theorem createOrGetWindow_idempotent_witness :
    (createOrGetWindow envProd "main" initState).1 = some 0
    ∧ (0 : Nat) ∉ (createOrGetWindow envProd "main" initState).2.destroyed
    ∧ createOrGetWindow envProd "main" (createOrGetWindow envProd "main" initState).2
        = (some 0, (createOrGetWindow envProd "main" initState).2) := by
  have h1 : (createOrGetWindow envProd "main" initState).1 = some 0 := by decide
  have h2 : (0 : Nat) ∉ (createOrGetWindow envProd "main" initState).2.destroyed := by decide
  exact ⟨h1, h2, createOrGetWindow_idempotent envProd "main" initState 0 h1 h2⟩

lemma SysWF.lookup_known {s : SysState} (hwf : SysWF s) {role : String} {w : Nat}
    (h : mapLookup s.windows role = some w) :
    w < s.nextId ∧ role ∈ knownRoles ∧ (role, w) ∈ s.listeners :=
  hwf.1 (role, w) (mapLookup_mem h)

lemma mapLookup_none_of_unknown {s : SysState} (hwf : SysWF s) {role : String}
    (hr : role ∉ knownRoles) : mapLookup s.windows role = none := by
  cases hm : mapLookup s.windows role with
  | none => rfl
  | some w => exact absurd (hwf.lookup_known hm).2.1 hr

/-- C8: passing a role outside the known set to `createOrGetWindow` yields
`none`, logs a diagnostic, and changes nothing else (in particular the
registry map is untouched); for every known role the call succeeds, so the
unknown-role path is the only error path. -/
theorem createOrGetWindow_unknown_role (env : Env) (role : String) (s : SysState)
    (hwf : SysWF s) :
    (role ∉ knownRoles →
      createOrGetWindow env role s
        = (none, { s with
            events := s.events ++ [Effect.diagnostic ("Unknown window type: " ++ role)] }))
    ∧ (role ∈ knownRoles → ∃ w, (createOrGetWindow env role s).1 = some w) := by
  constructor
  · intro hr
    rw [createOrGetWindow, mapLookup_none_of_unknown hwf hr]
    show createFresh env role s = _
    rw [createFresh, getWindowConfig_unknown hr env]
  · intro hr
    obtain ⟨c, hc⟩ := getWindowConfig_known hr env
    rw [createOrGetWindow]
    cases hm : mapLookup s.windows role with
    | some w0 =>
        by_cases hd : w0 ∈ s.destroyed
        · refine ⟨s.nextId, ?_⟩
          show (if w0 ∈ s.destroyed then createFresh env role s else (some w0, s)).1 = _
          rw [if_pos hd, createFresh, hc]
        · refine ⟨w0, ?_⟩
          show (if w0 ∈ s.destroyed then createFresh env role s else (some w0, s)).1 = _
          rw [if_neg hd]
    | none =>
        refine ⟨s.nextId, ?_⟩
        show (createFresh env role s).1 = _
        rw [createFresh, hc]

theorem createOrGetWindow_unknown_role_witness :
    SysWF initState
    ∧ "nonexistent" ∉ knownRoles
    ∧ createOrGetWindow envProd "nonexistent" initState
        = (none, { initState with
            events := initState.events
              ++ [Effect.diagnostic ("Unknown window type: " ++ "nonexistent")] }) := by
  have hwf : SysWF initState := by decide
  have hr : "nonexistent" ∉ knownRoles := by decide
  exact ⟨hwf, hr, (createOrGetWindow_unknown_role envProd "nonexistent" initState hwf).1 hr⟩

/-- C3: when the window stored for a role is destroyed (its `closed` event
fires) with no explicit `closeWindow` call, the destruction listener removes
the role's map entry, and `getWindow` for that role returns `none` with no
other registry call required. -/
theorem destroyed_window_forgotten (role : String) (s : SysState) (w : Nat)
    (hwf : SysWF s) (h : mapLookup s.windows role = some w) :
    mapLookup (fireClosed w s).windows role = none
    ∧ getWindow role (fireClosed w s) = none := by
  have hl : (role, w) ∈ s.listeners := (hwf.lookup_known h).2.2
  have hnone : mapLookup (fireClosed w s).windows role = none := by
    show mapLookup (s.windows.filter _) role = none
    refine mapLookup_filter_eq_none (fun v => ?_)
    simp [hl]
  refine ⟨hnone, ?_⟩
  rw [getWindow, hnone]

theorem destroyed_window_forgotten_witness :
    SysWF (createOrGetWindow envProd "floatBall" initState).2
    ∧ mapLookup (createOrGetWindow envProd "floatBall" initState).2.windows "floatBall" = some 0
    ∧ mapLookup (fireClosed 0 (createOrGetWindow envProd "floatBall" initState).2).windows
        "floatBall" = none
    ∧ getWindow "floatBall" (fireClosed 0 (createOrGetWindow envProd "floatBall" initState).2)
        = none := by
  have hwf : SysWF (createOrGetWindow envProd "floatBall" initState).2 := by decide
  have h : mapLookup (createOrGetWindow envProd "floatBall" initState).2.windows "floatBall"
      = some 0 := by decide
  have hmain := destroyed_window_forgotten "floatBall"
    (createOrGetWindow envProd "floatBall" initState).2 0 hwf h
  exact ⟨hwf, h, hmain.1, hmain.2⟩

/-- C4: closing a role with a live stored handle requests the window's close
and removes the registry entry immediately (before any destruction
notification); afterwards `getWindow` returns `none`, a subsequent
`createOrGetWindow` constructs a distinct new handle, and the destruction
listener later firing for the closed window still finds no entry. -/
theorem closeWindow_spec (env : Env) (role : String) (s : SysState) (w : Nat)
    (hwf : SysWF s) (h : mapLookup s.windows role = some w) (hd : w ∉ s.destroyed) :
    (closeWindow role s).events = s.events ++ [Effect.closeRequest w]
    ∧ mapLookup (closeWindow role s).windows role = none
    ∧ getWindow role (closeWindow role s) = none
    ∧ (∃ w', (createOrGetWindow env role (closeWindow role s)).1 = some w' ∧ w' ≠ w)
    ∧ mapLookup (fireClosed w (closeWindow role s)).windows role = none := by
  have hclose : closeWindow role s
      = { s with
          events := s.events ++ [Effect.closeRequest w]
          windows := mapDelete s.windows role } := by
    rw [closeWindow, h]
    show (if w ∈ s.destroyed then s else _) = _
    rw [if_neg hd]
  have hdel : mapLookup (closeWindow role s).windows role = none := by
    rw [hclose]
    exact mapLookup_mapDelete_self _ _
  have hrole : role ∈ knownRoles := (hwf.lookup_known h).2.1
  obtain ⟨c, hc⟩ := getWindowConfig_known hrole env
  have hfresh : (createOrGetWindow env role (closeWindow role s)).1
      = some (closeWindow role s).nextId := by
    rw [createOrGetWindow, hdel]
    show (createFresh env role (closeWindow role s)).1 = _
    rw [createFresh, hc]
  refine ⟨by rw [hclose], hdel, by rw [getWindow, hdel], ⟨(closeWindow role s).nextId, hfresh, ?_⟩, ?_⟩
  · have hlt : w < s.nextId := (hwf.lookup_known h).1
    have : (closeWindow role s).nextId = s.nextId := by rw [hclose]
    omega
  · show mapLookup ((closeWindow role s).windows.filter _) role = none
    exact mapLookup_filter_of_none hdel

theorem closeWindow_spec_witness :
    SysWF (createOrGetWindow envProd "main" initState).2
    ∧ mapLookup (createOrGetWindow envProd "main" initState).2.windows "main" = some 0
    ∧ (0 : Nat) ∉ (createOrGetWindow envProd "main" initState).2.destroyed
    ∧ getWindow "main" (closeWindow "main" (createOrGetWindow envProd "main" initState).2) = none
    ∧ (∃ w', (createOrGetWindow envProd "main"
          (closeWindow "main" (createOrGetWindow envProd "main" initState).2)).1 = some w'
        ∧ w' ≠ 0) := by
  have hwf : SysWF (createOrGetWindow envProd "main" initState).2 := by decide
  have h : mapLookup (createOrGetWindow envProd "main" initState).2.windows "main" = some 0 := by
    decide
  have hd : (0 : Nat) ∉ (createOrGetWindow envProd "main" initState).2.destroyed := by decide
  have hmain := closeWindow_spec envProd "main" (createOrGetWindow envProd "main" initState).2 0
    hwf h hd
  exact ⟨hwf, h, hd, hmain.2.2.1, hmain.2.2.2.1⟩

/-! ## Drag/click lemmas -/

lemma stepMove_below {winX winY mouseX mouseY : Int} {m : Int × Int}
    (h1 : |m.1 - mouseX| ≤ 5) (h2 : |m.2 - mouseY| ≤ 5) :
    stepMove winX winY mouseX mouseY false m = (false, none) := by
  simp [stepMove, not_lt.mpr h1, not_lt.mpr h2]

lemma stepMove_cross {winX winY mouseX mouseY : Int} {m : Int × Int}
    (h : 5 < |m.1 - mouseX| ∨ 5 < |m.2 - mouseY|) :
    stepMove winX winY mouseX mouseY false m
      = (true, some (winX + (m.1 - mouseX), winY + (m.2 - mouseY))) := by
  rcases h with h | h <;> simp [stepMove, h]

lemma stepMove_dragging (winX winY mouseX mouseY : Int) (m : Int × Int) :
    stepMove winX winY mouseX mouseY true m
      = (true, some (winX + (m.1 - mouseX), winY + (m.2 - mouseY))) := by
  simp [stepMove]

lemma runMoves_below {winX winY mouseX mouseY : Int} {moves : List (Int × Int)}
    (h : ∀ m ∈ moves, |m.1 - mouseX| ≤ 5 ∧ |m.2 - mouseY| ≤ 5) (rest : List (Int × Int)) :
    runMoves winX winY mouseX mouseY false (moves ++ rest)
      = runMoves winX winY mouseX mouseY false rest := by
  induction moves with
  | nil => rfl
  | cons m ms ih =>
      rw [List.cons_append, runMoves,
        stepMove_below (h m (List.mem_cons_self m ms)).1 (h m (List.mem_cons_self m ms)).2]
      rw [ih (fun p hp => h p (List.mem_cons_of_mem m hp))]
      simp

lemma runMoves_dragging (winX winY mouseX mouseY : Int) (moves : List (Int × Int)) :
    runMoves winX winY mouseX mouseY true moves
      = (true, moves.map (fun p => (winX + (p.1 - mouseX), winY + (p.2 - mouseY)))) := by
  induction moves with
  | nil => rfl
  | cons m ms ih =>
      rw [runMoves, stepMove_dragging, ih]
      simp

/-- C5: a collapsed-state pointer cycle in which every move keeps
`max(|Δx|, |Δy|)` at 5 pixels or less and whose release comes strictly under
200ms after the press is a click: the expanded state toggles (collapsed to
expanded) and no position-set message is sent. -/
theorem click_cycle_spec (c : DragCycle)
    (hmv : ∀ m ∈ c.moves, max |m.1 - c.mouseX| |m.2 - c.mouseY| ≤ 5)
    (ht : c.upTime - c.downTime < 200) :
    handleCycle false c = (true, []) := by
  have h' : ∀ m ∈ c.moves, |m.1 - c.mouseX| ≤ 5 ∧ |m.2 - c.mouseY| ≤ 5 := fun m hm =>
    ⟨le_trans (le_max_left _ _) (hmv m hm), le_trans (le_max_right _ _) (hmv m hm)⟩
  have hrun : cycleRun c = (false, []) := by
    rw [cycleRun, ← List.append_nil c.moves, runMoves_below h' [], runMoves]
  rw [handleCycle]
  rw [if_neg (by simp : ¬ (false : Bool) = true)]
  rw [hrun]
  simp [ht]

theorem click_cycle_spec_witness :
    (∀ m ∈ [((103 : Int), (102 : Int))],
      max |m.1 - (100 : Int)| |m.2 - (100 : Int)| ≤ 5)
    ∧ ((150 : Int) - 0 < 200)
    ∧ handleCycle false
        { mouseX := 100, mouseY := 100, downTime := 0, winX := 500, winY := 400,
          moves := [(103, 102)], upTime := 150 } = (true, []) := by
  have h1 : ∀ m ∈ [((103 : Int), (102 : Int))],
      max |m.1 - (100 : Int)| |m.2 - (100 : Int)| ≤ 5 := by decide
  have h2 : (150 : Int) - 0 < 200 := by decide
  exact ⟨h1, h2, click_cycle_spec
    { mouseX := 100, mouseY := 100, downTime := 0, winX := 500, winY := 400,
      moves := [(103, 102)], upTime := 150 } h1 h2⟩

/-- C6: once a move exceeds the 5-pixel threshold on either axis, the cycle
is dragging: that move and every later one sends a position-set message equal
to the initial window position plus the cumulative delta from the press
coordinates, and the release performs no click toggle. -/
theorem drag_cycle_spec (c : DragCycle) (pre post : List (Int × Int)) (m : Int × Int)
    (hsplit : c.moves = pre ++ m :: post)
    (hpre : ∀ p ∈ pre, |p.1 - c.mouseX| ≤ 5 ∧ |p.2 - c.mouseY| ≤ 5)
    (hm : 5 < |m.1 - c.mouseX| ∨ 5 < |m.2 - c.mouseY|) :
    handleCycle false c
      = (false,
         (m :: post).map (fun p => (c.winX + (p.1 - c.mouseX), c.winY + (p.2 - c.mouseY)))) := by
  have hrun : cycleRun c
      = (true, (m :: post).map (fun p => (c.winX + (p.1 - c.mouseX), c.winY + (p.2 - c.mouseY)))) := by
    rw [cycleRun, hsplit, runMoves_below hpre (m :: post), runMoves, stepMove_cross hm,
      runMoves_dragging]
    simp
  rw [handleCycle]
  rw [if_neg (by simp : ¬ (false : Bool) = true)]
  rw [hrun]
  simp

theorem drag_cycle_spec_witness :
    ([((108 : Int), (100 : Int)), (120, 110)]
        = [] ++ ((108 : Int), (100 : Int)) :: [((120 : Int), (110 : Int))])
    ∧ (5 < |(108 : Int) - 100| ∨ 5 < |(100 : Int) - 100|)
    ∧ handleCycle false
        { mouseX := 100, mouseY := 100, downTime := 0, winX := 500, winY := 400,
          moves := [(108, 100), (120, 110)], upTime := 1000 }
      = (false, [(508, 400), (520, 410)]) := by
  have hsplit : ([((108 : Int), (100 : Int)), (120, 110)] : List (Int × Int))
      = [] ++ (108, 100) :: [(120, 110)] := rfl
  have hpre : ∀ p ∈ ([] : List (Int × Int)),
      |p.1 - (100 : Int)| ≤ 5 ∧ |p.2 - (100 : Int)| ≤ 5 := by decide
  have hm : 5 < |(108 : Int) - 100| ∨ 5 < |(100 : Int) - 100| := by decide
  have hmain := drag_cycle_spec
    { mouseX := 100, mouseY := 100, downTime := 0, winX := 500, winY := 400,
      moves := [(108, 100), (120, 110)], upTime := 1000 }
    [] [(120, 110)] (108, 100) hsplit hpre hm
  refine ⟨hsplit, hm, ?_⟩
  rw [hmain]
  decide

/-! ## Restore-main lemmas -/

lemma getWindow_congr {s s' : SysState} (role : String)
    (hw : s'.windows = s.windows) (hd : s'.destroyed = s.destroyed) :
    getWindow role s' = getWindow role s := by
  rw [getWindow, getWindow, hw, hd]

lemma restoreShowFocus_fields (w : Nat) (route? : Option String) (s₁ : SysState) :
    (restoreShowFocus w route? s₁).events
      = s₁.events
        ++ (if w ∈ s₁.minimized then [Effect.restore w] else [])
        ++ [Effect.showWindow w, Effect.focus w]
        ++ (match route? with
            | some r => if r ≠ "" then [Effect.sendRoute w r] else []
            | none => [])
    ∧ (restoreShowFocus w route? s₁).windows = s₁.windows
    ∧ (restoreShowFocus w route? s₁).destroyed = s₁.destroyed := by
  rw [restoreShowFocus.eq_def]
  by_cases hmin : w ∈ s₁.minimized
  · cases route? with
    | none => simp [hmin]
    | some r =>
        by_cases hr : r = ""
        · simp [hmin, hr]
        · simp [hmin, hr]
  · cases route? with
    | none => simp [hmin]
    | some r =>
        by_cases hr : r = ""
        · simp [hmin, hr]
        · simp [hmin, hr]

lemma createOrGet_not_live {env : Env} {role : String} {s : SysState}
    (h : getWindow role s = none) :
    createOrGetWindow env role s = createFresh env role s := by
  rw [getWindow] at h
  rw [createOrGetWindow]
  cases hm : mapLookup s.windows role with
  | some w0 =>
      rw [hm] at h
      have h' : (if w0 ∈ s.destroyed then (none : Option Nat) else some w0) = none := h
      show (if w0 ∈ s.destroyed then createFresh env role s else (some w0, s)) = _
      by_cases hd : w0 ∈ s.destroyed
      · rw [if_pos hd]
      · rw [if_neg hd] at h'
        exact absurd h' (by simp)
  | none => rfl

lemma createFresh_eq {env : Env} {role : String} {c : WindowConfig} (s : SysState)
    (hc : getWindowConfig env role = some c) :
    createFresh env role s
      = (some s.nextId,
         { s with
           nextId := s.nextId + 1
           windows := mapSet s.windows role s.nextId
           listeners := (role, s.nextId) :: s.listeners
           winPos := fun i =>
             if i = s.nextId then
               match c.options.x?, c.options.y? with
               | some x, some y => (x, y)
               | _, _ => s.winPos i
             else s.winPos i
           events := s.events ++ [.createWindow s.nextId, .wiring role s.nextId]
             ++ loadEffects env c s.nextId }) := by
  rw [createFresh, hc]

lemma createFresh_fields {env : Env} {role : String} {c : WindowConfig} (s : SysState)
    (hc : getWindowConfig env role = some c) :
    (createFresh env role s).1 = some s.nextId
    ∧ (createFresh env role s).2.windows = mapSet s.windows role s.nextId
    ∧ (createFresh env role s).2.events
        = s.events ++ [Effect.createWindow s.nextId, Effect.wiring role s.nextId]
          ++ loadEffects env c s.nextId
    ∧ (createFresh env role s).2.destroyed = s.destroyed
    ∧ (createFresh env role s).2.minimized = s.minimized := by
  rw [createFresh_eq s hc]
  exact ⟨rfl, rfl, rfl, rfl, rfl⟩

/-- C9 (amended): the restore-main handler guarantees a live main handle
(reusing the live one, else creating handle `s.nextId`), emits a restore
exactly when that window is minimized, then shows and focuses it, and sends
the route-navigation message exactly when a non-empty route hint was
supplied. -/
theorem handleRestoreMain_spec (env : Env) (route? : Option String) (s : SysState)
    (hwf : SysWF s) :
    ∃ w pre,
      getWindow "main" (handleRestoreMain env route? s) = some w
      ∧ ((getWindow "main" s = some w ∧ pre = []) ∨ (getWindow "main" s = none ∧ w = s.nextId))
      ∧ (handleRestoreMain env route? s).events
          = s.events ++ pre
            ++ (if w ∈ s.minimized then [Effect.restore w] else [])
            ++ [Effect.showWindow w, Effect.focus w]
            ++ (match route? with
                | some r => if r ≠ "" then [Effect.sendRoute w r] else []
                | none => []) := by
  cases hm : getWindow "main" s with
  | some w =>
      have hred : handleRestoreMain env route? s = restoreShowFocus w route? s := by
        rw [handleRestoreMain, hm]
      obtain ⟨he, hwi, hde⟩ := restoreShowFocus_fields w route? s
      refine ⟨w, [], ?_, Or.inl ⟨rfl, rfl⟩, ?_⟩
      · rw [hred]
        exact (getWindow_congr "main" hwi hde).trans hm
      · rw [hred, he]
        simp
  | none =>
      have hrole : "main" ∈ knownRoles := by simp [knownRoles]
      obtain ⟨c, hc⟩ := getWindowConfig_known hrole env
      have hAll := createFresh_fields s hc
      have hred : handleRestoreMain env route? s
          = restoreShowFocus s.nextId route? (createFresh env "main" s).2 := by
        rw [handleRestoreMain, hm, createOrGet_not_live hm]
        rw [show createFresh env "main" s
            = (some s.nextId, (createFresh env "main" s).2) by rw [← hAll.1]]
      obtain ⟨he, hwi, hde⟩ :=
        restoreShowFocus_fields s.nextId route? (createFresh env "main" s).2
      have hnd : s.nextId ∉ s.destroyed := fun hmem =>
        absurd (hwf.2.1 s.nextId hmem) (lt_irrefl _)
      refine ⟨s.nextId,
        [Effect.createWindow s.nextId, Effect.wiring "main" s.nextId]
          ++ loadEffects env c s.nextId,
        ?_, Or.inr ⟨rfl, rfl⟩, ?_⟩
      · rw [hred]
        rw [getWindow_congr "main" hwi hde]
        rw [getWindow, hAll.2.1, mapLookup_mapSet_self]
        show (if s.nextId ∈ (createFresh env "main" s).2.destroyed
          then none else some s.nextId) = some s.nextId
        rw [hAll.2.2.2.1, if_neg hnd]
      · rw [hred, he, hAll.2.2.1, hAll.2.2.2.2]
        simp

/-- C9 counterexample: with a live main window and payload `{route: ""}` the
route hint is supplied, yet no route-navigation message is delivered — the
handler only shows and focuses, because `if (options?.route)` treats the
empty string as falsy. -/
theorem handleRestoreMain_empty_route_counterexample :
    (some "" : Option String) ≠ none
    ∧ (handleRestoreMain envProd (some "") stMain).events
        = [Effect.showWindow 0, Effect.focus 0]
    ∧ Effect.sendRoute 0 "" ∉ (handleRestoreMain envProd (some "") stMain).events := by
  refine ⟨by simp, by decide, by decide⟩

theorem handleRestoreMain_spec_witness :
    SysWF stMainMin
    ∧ ∃ w pre,
      getWindow "main" (handleRestoreMain envProd (some "INDEX") stMainMin) = some w
      ∧ ((getWindow "main" stMainMin = some w ∧ pre = [])
          ∨ (getWindow "main" stMainMin = none ∧ w = stMainMin.nextId))
      ∧ (handleRestoreMain envProd (some "INDEX") stMainMin).events
          = stMainMin.events ++ pre
            ++ (if w ∈ stMainMin.minimized then [Effect.restore w] else [])
            ++ [Effect.showWindow w, Effect.focus w]
            ++ (match (some "INDEX" : Option String) with
                | some r => if r ≠ "" then [Effect.sendRoute w r] else []
                | none => []) := by
  have hwf : SysWF stMainMin := by decide
  exact ⟨hwf, handleRestoreMain_spec envProd (some "INDEX") stMainMin hwf⟩

lemma jsRound_tenPointSeven : jsRound (10.7 : ℚ) = 11 := by
  norm_num [jsRound]

lemma jsRound_twentyPointTwo : jsRound (20.2 : ℚ) = 20 := by
  norm_num [jsRound]

/-- C7: when a live floatBall window exists, a position-set message applies
each coordinate rounded to a nearest whole number (`Math.round`, within 1/2
of the payload value), both in the emitted effect and in the resulting
window position; in particular payload `{x: 10.7, y: 20.2}` puts the window
at `(11, 20)`. -/
theorem handleSetPosition_spec (x y : ℚ) (s : SysState) (w : Nat)
    (h : getWindow "floatBall" s = some w) :
    (handleSetPosition x y s).events
        = s.events ++ [Effect.setPosition w (jsRound x) (jsRound y)]
    ∧ (handleSetPosition x y s).winPos w = (jsRound x, jsRound y)
    ∧ |x - jsRound x| ≤ 1/2 ∧ |y - jsRound y| ≤ 1/2
    ∧ (x = 10.7 → y = 20.2 → (handleSetPosition x y s).winPos w = (11, 20)) := by
  have hred : handleSetPosition x y s
      = { s with
          events := s.events ++ [Effect.setPosition w (jsRound x) (jsRound y)]
          winPos := fun i => if i = w then (jsRound x, jsRound y) else s.winPos i } := by
    rw [handleSetPosition, h]
  refine ⟨by rw [hred], by rw [hred]; simp, jsRound_near x, jsRound_near y, ?_⟩
  intro hx hy
  subst hx
  subst hy
  rw [hred]
  simp [jsRound_tenPointSeven, jsRound_twentyPointTwo]

theorem handleSetPosition_spec_witness :
    getWindow "floatBall" stFloat = some 0
    ∧ (handleSetPosition 10.7 20.2 stFloat).winPos 0 = (11, 20) := by
  have h : getWindow "floatBall" stFloat = some 0 := by decide
  exact ⟨h, (handleSetPosition_spec 10.7 20.2 stFloat 0 h).2.2.2.2 rfl rfl⟩

/-- C10: when no live floatBall window exists the position query does not
fail and returns the concrete pair `(0, 0)`, which a drag cycle started in
that state then uses as the window's initial position. -/
theorem handleGetPosition_no_window (s : SysState)
    (mouseX mouseY downTime upTime : Int) (moves : List (Int × Int))
    (h : getWindow "floatBall" s = none) :
    handleGetPosition s = (0, 0)
    ∧ (startCycle s mouseX mouseY downTime moves upTime).winX = 0
    ∧ (startCycle s mouseX mouseY downTime moves upTime).winY = 0 := by
  have h0 : handleGetPosition s = (0, 0) := by
    rw [handleGetPosition, h]
  exact ⟨h0, by rw [startCycle, h0], by rw [startCycle, h0]⟩

theorem handleGetPosition_no_window_witness :
    getWindow "floatBall" initState = none
    ∧ handleGetPosition initState = (0, 0)
    ∧ (startCycle initState 100 100 0 [(120, 110)] 50).winX = 0
    ∧ (startCycle initState 100 100 0 [(120, 110)] 50).winY = 0 := by
  have h : getWindow "floatBall" initState = none := by decide
  have hmain := handleGetPosition_no_window initState 100 100 0 50 [(120, 110)] h
  exact ⟨h, hmain.1, hmain.2.1, hmain.2.2⟩

/-- C2 (code bug): in development with no configured dev-server address,
creating the main window emits a load of the empty URL — even though the
resolved config supplies the local bundled file for exactly this case — so
the local file is never loaded; in production the local file (with the
anchor for popup) is loaded. -/
theorem devNoUrl_loads_empty_url :
    (createOrGetWindow envDevNoUrl "main" initState).2.events
      = [Effect.createWindow 0, Effect.wiring "main" 0, Effect.loadURL 0 ""]
    ∧ (getWindowConfig envDevNoUrl "main").map (fun c => c.file?)
        = some (some "../renderer/index.html")
    ∧ (createOrGetWindow envProd "main" initState).2.events
        = [Effect.createWindow 0, Effect.wiring "main" 0,
           Effect.loadFile 0 "../renderer/index.html" none]
    ∧ (createOrGetWindow envProd "popup" initState).2.events
        = [Effect.createWindow 0, Effect.wiring "popup" 0,
           Effect.loadFile 0 "../renderer/float.html" (some "popup")] := by
  refine ⟨by decide, by decide, by decide, by decide⟩
